import Mathlib

set_option linter.unusedVariables false

/-!
Shallow embedding of `PyLorentz/dataset/defocused_dataset.py` (class
`DefocusedDataset`).

Images are kept abstract: the per-image numeric kernels
(`scipy.ndimage.rotate`, `scipy.ndimage.median_filter`,
`PyLorentz.utils.filter.filter_hotpix`, `BaseDataset._bandpass_filter`) are
external to the dataset module, so they are passed in as a record of
functions over an abstract image type `Img`.  The stack is a `List Img`,
the defocus values a `List ℚ`.  Stateful methods return the Python
object's state after the call together with the exception raised, if any
(mutations made before an exception persist, as in Python).  The
constructor returns `Except`, since a raising `__init__` lets no object
escape to the caller.
-/

/-- Python exceptions raised by the modelled code paths.  Message strings
are abbreviated constants; the source interpolates runtime values. -/
inductive PyErr where
  | valueError (msg : String)
  | typeError (msg : String)
  | indexError (msg : String)
  | attributeError (msg : String)
  | keyError (msg : String)
deriving DecidableEq, Repr

/-- A numpy value held in `_images_filtered`: either a proper image stack,
or the 0-dimensional object array that `np.zeros_like(None)` produces. -/
inductive NpArr (Img : Type) where
  | stack (l : List Img)
  | obj0d
deriving DecidableEq, Repr

/-- The `images` argument of `__init__` / the `images` property setter:
a single 2-D image (promoted to a length-1 stack) or a 3-D stack. -/
inductive ImagesInput (Img : Type) where
  | im2d (i : Img)
  | im3d (l : List Img)
deriving DecidableEq, Repr

/-- The `defvals` argument: `None`, a bare scalar, or a sequence. -/
inductive DefvalsIn where
  | dnone
  | dscalar (q : ℚ)
  | darr (l : List ℚ)
deriving DecidableEq, Repr

/-- A Python value passed for the beam energy: numeric, or some
non-numeric object (tagged with its type name). -/
inductive EnergyVal where
  | num (q : ℚ)
  | nonNum (tyname : String)
deriving DecidableEq, Repr

/-- The `idx` argument of `filter`: `None`, an int, a list of ints, or a
value of any other type (which `filter` rejects). -/
inductive IdxInput where
  | inone
  | iint (n : ℤ)
  | ilist (l : List ℤ)
  | ibad (tyname : String)
deriving DecidableEq, Repr

/-- Modelled from the spec: the `BaseDataset._transforms` record (the base
class is outside this module).  Rotation angle plus crop box
`[top:bottom, left:right]`. -/
structure Transforms where
  rotation : ℚ
  top : ℤ
  bottom : ℤ
  left : ℤ
  right : ℤ
deriving DecidableEq, Repr

/-- Modelled from the spec: the `BaseDataset._filters` dict.  Each field is
`none` while the key is absent; for keys whose stored value may itself be
Python `None` (`q_lowpass`, `q_highpass`, `median`) the present value is a
further `Option`. -/
structure Filters where
  q_lowpass : Option (Option ℚ) := none
  q_highpass : Option (Option ℚ) := none
  filter_type : Option String := none
  butterworth_order : Option ℤ := none
  hotpix : Option Bool := none
  median : Option (Option ℤ) := none
deriving DecidableEq, Repr

/-- The external per-image numeric kernels, abstracted.  `bandpass` is
`BaseDataset._bandpass_filter`, `filter_hotpix` is
`PyLorentz.utils.filter.filter_hotpix fast`, `median_filter` is
`ndi.median_filter` with size `(1, m, m)` (spatial dimensions only, hence
per image), `rotate` is `ndi.rotate` with `reshape=False`, `crop` is the
slice `[top:bottom, left:right]`, `zeroLike` is per-image `np.zeros_like`,
and `shape` reads an image's 2-D shape. -/
structure Kernels (Img : Type) where
  bandpass : Option ℚ → Option ℚ → String → ℤ → Img → Img
  filter_hotpix : Bool → Img → Img
  median_filter : ℤ → Img → Img
  rotate : ℚ → Img → Img
  crop : ℤ → ℤ → ℤ → ℤ → Img → Img
  zeroLike : Img → Img
  shape : Img → ℤ × ℤ

/-- State of one `DefocusedDataset` object.  Field names drop the Python
underscore prefix: `images` is `self._images` (the Current View),
`beam_energy` is the plain attribute `self.beam_energy` set by
`__init__`, and `beam_energy_prop` is `self._beam_energy`, the backing
field of the `energy` property (`none` = attribute missing). -/
structure DD (Img : Type) where
  images : List Img
  defvals : List ℚ
  orig_images : List Img
  orig_shape : ℤ × ℤ
  orig_images_preprocessed : Option (List Img)
  images_cropped : Option (List Img)
  images_filtered : Option (NpArr Img)
  beam_energy : Option EnergyVal
  beam_energy_prop : Option ℚ
  transforms : Transforms
  default_transforms : Transforms
  transforms_modified : Bool
  filters : Filters
  preprocessed : Bool
  cropped : Bool
  filtered : Bool
  simulated : Bool
deriving DecidableEq, Repr

/-- `np.ndim(images) == 2` promotion in `__init__` and the `images`
setter: a single 2-D image becomes a length-1 stack. -/
def promoteImages {Img : Type} : ImagesInput Img → List Img
  | .im2d i => [i]
  | .im3d l => l

/-- numpy basic integer indexing `a[i]`: negative indices wrap once;
out-of-range raises `IndexError`. -/
def npIndex {α : Type} (l : List α) : ℤ → Except PyErr α
  | .ofNat n =>
    match l[n]? with
    | some x => .ok x
    | none => .error (.indexError "index out of range")
  | .negSucc n =>
    if n < l.length then
      match l[(l.length - (n + 1) : ℕ)]? with
      | some x => .ok x
      | none => .error (.indexError "index out of range")
    else .error (.indexError "index out of range")

/-- numpy fancy indexing `a[indices]` (a gather), as used for
`input_ims = cache[indices].copy()`. -/
def npGather {α : Type} (l : List α) : List ℤ → Except PyErr (List α)
  | [] => .ok []
  | i :: is =>
    match npIndex l i with
    | .error e => .error e
    | .ok x =>
      match npGather l is with
      | .error e => .error e
      | .ok xs => .ok (x :: xs)

/-- One element store `a[i] = v` with numpy index semantics. -/
def npSet1 {α : Type} (l : List α) (i : ℤ) (v : α) : Except PyErr (List α) :=
  match i with
  | .ofNat n =>
    if n < l.length then .ok (l.set n v)
    else .error (.indexError "index out of range")
  | .negSucc n =>
    if n < l.length then .ok (l.set (l.length - (n + 1)) v)
    else .error (.indexError "index out of range")

/-- Fancy-index assignment `a[indices] = vals` on a stack: element stores
in sequence (duplicate indices: last write wins, as in numpy). -/
def npSetList {α : Type} : List α → List ℤ → List α → Except PyErr (List α)
  | l, [], _ => .ok l
  | l, i :: is, vals =>
    match vals with
    | [] => .error (.valueError "shape mismatch")
    | v :: vs =>
      match npSet1 l i v with
      | .error e => .error e
      | .ok l2 => npSetList l2 is vs

/-- `a[indices] = vals` where `a` is the `_images_filtered` slot: on the
0-d object array produced by `np.zeros_like(None)` any fancy index raises
`IndexError: too many indices`. -/
def npSetArr {Img : Type} (a : NpArr Img) (idx : List ℤ) (vals : List Img) :
    Except PyErr (NpArr Img) :=
  match a with
  | .obj0d => .error (.indexError "too many indices for array")
  | .stack l =>
    match npSetList l idx vals with
    | .error e => .error e
    | .ok l2 => .ok (.stack l2)

/-- `np.zeros_like` applied to the `_images_cropped` slot, which may be
`None` (then the result is a 0-d object array, not a stack). -/
def npZerosLike {Img : Type} (K : Kernels Img) : Option (List Img) → NpArr Img
  | none => .obj0d
  | some l => .stack (l.map K.zeroLike)

/-- Shape stored as `imshape` at construction: `images.shape[1:]`. -/
def headShape {Img : Type} (K : Kernels Img) : List Img → ℤ × ℤ
  | [] => (0, 0)
  | x :: _ => K.shape x

/-- Modelled from the spec: `BaseDataset` default transform parameters —
zero rotation and a full-frame crop box (the reset-to-default target). -/
def defaultTransforms (shp : ℤ × ℤ) : Transforms :=
  { rotation := 0, top := 0, bottom := shp.1, left := 0, right := shp.2 }

/-- `DefocusedDataset.__init__`.  Follows the source order: promote the
images, promote a scalar `defvals`, set `self.images` (no length check
yet: `_defvals` does not exist), snapshot `_orig_images`, then run the
`defvals` setter, which raises `TypeError` on `None` (`len(None)`) and
`ValueError` on a length mismatch.  `beam_energy` is stored in the plain
attribute without validation; `self._beam_energy` is never initialized. -/
def init {Img : Type} (K : Kernels Img) (images : ImagesInput Img)
    (defvals : DefvalsIn) (beam_energy : Option EnergyVal)
    (simulated : Bool) : Except PyErr (DD Img) :=
  let ims := promoteImages images
  let dvs : DefvalsIn :=
    match defvals with
    | .dscalar q => .darr [q]
    | x => x
  let shp := headShape K ims
  match dvs with
  | .dnone => .error (.typeError "object of type NoneType has no len")
  | .dscalar q =>
    if 1 ≠ ims.length then
      .error (.valueError "number defocus vals must equal number images")
    else
      .ok { images := ims, defvals := [q], orig_images := ims,
            orig_shape := shp, orig_images_preprocessed := none,
            images_cropped := none, images_filtered := none,
            beam_energy := beam_energy, beam_energy_prop := none,
            transforms := defaultTransforms shp,
            default_transforms := defaultTransforms shp,
            transforms_modified := false, filters := {},
            preprocessed := false, cropped := false, filtered := false,
            simulated := simulated }
  | .darr l =>
    if l.length ≠ ims.length then
      .error (.valueError "number defocus vals must equal number images")
    else
      .ok { images := ims, defvals := l, orig_images := ims,
            orig_shape := shp, orig_images_preprocessed := none,
            images_cropped := none, images_filtered := none,
            beam_energy := beam_energy, beam_energy_prop := none,
            transforms := defaultTransforms shp,
            default_transforms := defaultTransforms shp,
            transforms_modified := false, filters := {},
            preprocessed := false, cropped := false, filtered := false,
            simulated := simulated }

/-- The `images` property setter applied to a raw stack (3-D numpy array),
as used internally (`self.images = <array>`): after construction
`_defvals` always exists, so the length check always runs. -/
def setImagesList {Img : Type} (ds : DD Img) (ims : List Img) :
    DD Img × Option PyErr :=
  if ims.length ≠ ds.defvals.length then
    (ds, some (.valueError "len images must equal len defvals"))
  else ({ ds with images := ims }, none)

/-- Public assignment `ds.images = x` (with the 2-D promotion). -/
def setImages {Img : Type} (ds : DD Img) (inp : ImagesInput Img) :
    DD Img × Option PyErr :=
  setImagesList ds (promoteImages inp)

/-- Public assignment `ds.defvals = x`: scalars are promoted, `None`
raises `TypeError` at `len(dfs)`, a mismatched length raises
`ValueError`; the field is only written after the checks pass. -/
def setDefvals {Img : Type} (ds : DD Img) (dv : DefvalsIn) :
    DD Img × Option PyErr :=
  match dv with
  | .dnone => (ds, some (.typeError "object of type NoneType has no len"))
  | .dscalar q =>
    if 1 ≠ ds.images.length then
      (ds, some (.valueError "number defocus vals must equal number images"))
    else ({ ds with defvals := [q] }, none)
  | .darr l =>
    if l.length ≠ ds.images.length then
      (ds, some (.valueError "number defocus vals must equal number images"))
    else ({ ds with defvals := l }, none)

/-- The `energy` property setter: `TypeError` for non-numeric input,
`ValueError` for values `≤ 0`, otherwise stores into `_beam_energy`. -/
def setEnergy {Img : Type} (ds : DD Img) (v : EnergyVal) :
    DD Img × Option PyErr :=
  match v with
  | .nonNum t => (ds, some (.typeError "energy must be numeric"))
  | .num q =>
    if q ≤ 0 then (ds, some (.valueError "energy must be greater than 0"))
    else ({ ds with beam_energy_prop := some q }, none)

/-- The `energy` property getter: reads `self._beam_energy`, raising
`AttributeError` if that attribute was never set. -/
def getEnergy {Img : Type} (ds : DD Img) : Except PyErr ℚ :=
  match ds.beam_energy_prop with
  | none => .error (.attributeError "_beam_energy")
  | some q => .ok q

/-- Left-to-right fallible map (the per-image loop bodies, which stop at
the first exception). -/
def mapME {α β : Type} (g : α → Except PyErr β) : List α → Except PyErr (List β)
  | [] => .ok []
  | x :: xs =>
    match g x with
    | .error e => .error e
    | .ok y =>
      match mapME g xs with
      | .error e => .error e
      | .ok ys => .ok (y :: ys)

/-- One `self._bandpass_filter(im, self._filters[...], ...)` call driven
by the recorded filter dict: a missing key raises `KeyError`. -/
def bandpassFromFilters {Img : Type} (K : Kernels Img) (f : Filters)
    (x : Img) : Except PyErr Img :=
  match f.q_lowpass, f.q_highpass, f.filter_type, f.butterworth_order with
  | some ql, some qh, some ft, some bo => .ok (K.bandpass ql qh ft bo x)
  | _, _, _, _ => .error (.keyError "filters")

/-- The base stack `apply_transforms` reads: Preprocessed if the flag is
set (`none` if that cache is missing, in which case `.copy()` on `None`
raises), else Raw. -/
def baseOf {Img : Type} (ds : DD Img) : Option (List Img) :=
  if ds.preprocessed then ds.orig_images_preprocessed else some ds.orig_images

/-- The input stack `filter` reads, by stage-flag precedence: Cropped,
else Preprocessed, else Raw (`none` if the flagged cache is missing, in
which case subscripting `None` raises). -/
def filterBaseOf {Img : Type} (ds : DD Img) : Option (List Img) :=
  if ds.cropped then ds.images_cropped
  else if ds.preprocessed then ds.orig_images_preprocessed
  else some ds.orig_images

/-- The rotate-then-crop body of `apply_transforms`: rotate every image by
the recorded angle when it is nonzero (`ndi.rotate`, `reshape=False`),
then crop every image to the stored box. -/
def cropOf {Img : Type} (K : Kernels Img) (ds : DD Img) (b : List Img) : List Img :=
  (if ds.transforms.rotation ≠ 0 then b.map (K.rotate ds.transforms.rotation) else b).map
    (K.crop ds.transforms.top ds.transforms.bottom ds.transforms.left ds.transforms.right)

/-- `DefocusedDataset.apply_transforms`: read Preprocessed (if the flag is
set) else Raw, rotate every image when the recorded rotation is nonzero,
crop to the stored box, store Cropped; if the filtered flag is set,
bandpass each image with the recorded filter parameters and store
Filtered; finally assign Current View through the `images` setter, clear
the dirty bit and set the cropped flag. -/
def applyTransforms {Img : Type} (K : Kernels Img) (ds : DD Img) :
    DD Img × Option PyErr :=
  match baseOf ds with
  | none => (ds, some (.attributeError "NoneType has no copy"))
  | some base =>
    let imgs1 := cropOf K ds base
    let ds1 := { ds with images_cropped := some imgs1 }
    if ds.filtered then
      match mapME (bandpassFromFilters K ds.filters) imgs1 with
      | .error e => (ds1, some e)
      | .ok fimgs =>
        let ds2 := { ds1 with images_filtered := some (.stack fimgs) }
        let r := setImagesList ds2 fimgs
        match r.2 with
        | some e => (r.1, some e)
        | none =>
          ({ r.1 with transforms_modified := false, cropped := true }, none)
    else
      let r := setImagesList ds1 imgs1
      match r.2 with
      | some e => (r.1, some e)
      | none =>
        ({ r.1 with transforms_modified := false, cropped := true }, none)

/-- Tail of `preprocess`: after the internal `apply_transforms`, record the
`hotpix` / `median` options (only when no exception was raised). -/
def preprocessFinish {Img : Type} (hotpix : Bool) (median_filter_size : Option ℤ)
    (r : DD Img × Option PyErr) : DD Img × Option PyErr :=
  match r.2 with
  | some e => (r.1, some e)
  | none =>
    let f2 := { r.1.filters with
      hotpix := some hotpix
      median := some median_filter_size }
    ({ r.1 with filters := f2 }, none)

/-- `DefocusedDataset.preprocess`: reset Current View to Raw through the
setter, optionally hot-pixel-correct each image in place, optionally
median-filter (spatial dimensions only) through the setter, mark the
preprocessed flag, snapshot Preprocessed, rerun `apply_transforms`, then
record the `hotpix` / `median` options. -/
def preprocess {Img : Type} (K : Kernels Img) (hotpix : Bool)
    (median_filter_size : Option ℤ) (fast : Bool) (ds : DD Img) :
    DD Img × Option PyErr :=
  let r0 := setImagesList ds ds.orig_images
  match r0.2 with
  | some e => (r0.1, some e)
  | none =>
    let d0 := r0.1
    let d1 :=
      if hotpix then { d0 with images := d0.images.map (K.filter_hotpix fast) }
      else d0
    let step2 : DD Img × Option PyErr :=
      match median_filter_size with
      | some m => setImagesList d1 (d1.images.map (K.median_filter m))
      | none => (d1, none)
    match step2.2 with
    | some e => (step2.1, some e)
    | none =>
      let d3 := { step2.1 with preprocessed := true,
                               orig_images_preprocessed := some step2.1.images }
      preprocessFinish hotpix median_filter_size (applyTransforms K d3)

/-- `DefocusedDataset.reset_transforms`: restore the default transform
parameters (`BaseDataset._reset_transforms`, modelled from the spec:
rotation zero, full-frame crop), then `apply_transforms`. -/
def resetTransforms {Img : Type} (K : Kernels Img) (ds : DD Img) :
    DD Img × Option PyErr :=
  applyTransforms K { ds with transforms := ds.default_transforms }

/-- `DefocusedDataset.filter`: resolve the index argument (`TypeError` for
a non-index type), gather the input images from Cropped / Preprocessed /
Raw by flag precedence, bandpass each, set the filtered flag and record
the parameters, allocate `_images_filtered` as `np.zeros_like` of the
Cropped slot when absent, then fancy-assign the results into
`_images_filtered` and into Current View at the selected indices.
`show` / `v` only drive display and are omitted. -/
def filterOp {Img : Type} (K : Kernels Img) (q_lowpass q_highpass : Option ℚ)
    (filter_type : String) (butterworth_order : ℤ) (idx : IdxInput)
    (ds : DD Img) : DD Img × Option PyErr :=
  let indicesE : Except PyErr (List ℤ) :=
    match idx with
    | .inone => .ok ((List.range ds.images.length).map Int.ofNat)
    | .iint n => .ok [n]
    | .ilist l => .ok l
    | .ibad t => .error (.typeError "idx must be an integer index, list of indices, or None")
  match indicesE with
  | .error e => (ds, some e)
  | .ok indices =>
    match filterBaseOf ds with
    | none => (ds, some (.typeError "NoneType is not subscriptable"))
    | some base =>
      match npGather base indices with
      | .error e => (ds, some e)
      | .ok input_ims =>
        let filtered_ims :=
          input_ims.map (K.bandpass q_lowpass q_highpass filter_type butterworth_order)
        let d1 := { ds with
          filtered := true,
          filters := { ds.filters with
            q_lowpass := some q_lowpass, q_highpass := some q_highpass,
            filter_type := some filter_type,
            butterworth_order := some butterworth_order } }
        let arr : NpArr Img :=
          match d1.images_filtered with
          | none => npZerosLike K d1.images_cropped
          | some a => a
        let d2 := { d1 with images_filtered := some arr }
        match npSetArr arr indices filtered_ims with
        | .error e => (d2, some e)
        | .ok arr2 =>
          let d3 := { d2 with images_filtered := some arr2 }
          match npSetList d3.images indices filtered_ims with
          | .error e => (d3, some e)
          | .ok newims => ({ d3 with images := newims }, none)

/-- `DefocusedDataset.select_ROI`: an explicit image must match the
original shape; otherwise the preview is taken from Preprocessed (if the
flag is set) else Raw at `idx` and bandpass-filtered when the filtered
flag is set.  The interactive `BaseDataset._select_ROI` primitive is
modelled from the spec: the user-chosen rectangle is written into the
transform parameters (and the dirty bit set); nothing else changes. -/
def selectROI {Img : Type} (K : Kernels Img) (idx : ℤ) (image : Option Img)
    (rect : ℤ × ℤ × ℤ × ℤ) (ds : DD Img) : DD Img × Option PyErr :=
  let write : DD Img → DD Img × Option PyErr := fun d =>
    let t2 := { d.transforms with
      top := rect.1
      bottom := rect.2.1
      left := rect.2.2.1
      right := rect.2.2.2 }
    ({ d with transforms := t2, transforms_modified := true }, none)
  match image with
  | some im =>
    if K.shape im ≠ ds.orig_shape then
      (ds, some (.valueError "shape of image for choosing ROI must match orig_images shape"))
    else write ds
  | none =>
    let srcE : Except PyErr Img :=
      if ds.preprocessed then
        match ds.orig_images_preprocessed with
        | some p => npIndex p idx
        | none => .error (.typeError "NoneType is not subscriptable")
      else npIndex ds.orig_images idx
    match srcE with
    | .error e => (ds, some e)
    | .ok im0 =>
      if ds.filtered then
        match bandpassFromFilters K ds.filters im0 with
        | .error e => (ds, some e)
        | .ok _ => write ds
      else write ds

/-- External mutation of the transform parameters (done by the user/GUI
through `BaseDataset`, modelled from the spec). -/
def setTransforms {Img : Type} (ds : DD Img) (t : Transforms) :
    DD Img × Option PyErr :=
  ({ ds with transforms := t, transforms_modified := true }, none)

/-- The mutating calls a client can make on an existing dataset. -/
inductive Op (Img : Type) where
  | preprocess (hotpix : Bool) (median_filter_size : Option ℤ) (fast : Bool)
  | applyTransforms
  | resetTransforms
  | filterOp (ql qh : Option ℚ) (ft : String) (bo : ℤ) (idx : IdxInput)
  | setImages (inp : ImagesInput Img)
  | setDefvals (dv : DefvalsIn)
  | setEnergy (v : EnergyVal)
  | selectROI (idx : ℤ) (image : Option Img) (rect : ℤ × ℤ × ℤ × ℤ)
  | setTransforms (t : Transforms)

/-- Run one mutating call. -/
def stepOp {Img : Type} (K : Kernels Img) : Op Img → DD Img → DD Img × Option PyErr
  | .preprocess h m f, ds => preprocess K h m f ds
  | .applyTransforms, ds => applyTransforms K ds
  | .resetTransforms, ds => resetTransforms K ds
  | .filterOp ql qh ft bo idx, ds => filterOp K ql qh ft bo idx ds
  | .setImages inp, ds => setImages ds inp
  | .setDefvals dv, ds => setDefvals ds dv
  | .setEnergy v, ds => setEnergy ds v
  | .selectROI i im r, ds => selectROI K i im r ds
  | .setTransforms t, ds => setTransforms ds t

/-- Run a sequence of mutating calls, keeping the (possibly mutated)
state even when a call raises — as a Python session that catches the
exception would. -/
def runOps {Img : Type} (K : Kernels Img) : List (Op Img) → DD Img → DD Img
  | [], ds => ds
  | op :: ops, ds => runOps K ops (stepOp K op ds).1

/-- The images / defocus-values count invariant. -/
def lenInv {Img : Type} (ds : DD Img) : Prop :=
  ds.images.length = ds.defvals.length

/-- The filter dict has all four bandpass keys present. -/
def filtersReadyF (f : Filters) : Prop :=
  f.q_lowpass.isSome ∧ f.q_highpass.isSome ∧
    f.filter_type.isSome ∧ f.butterworth_order.isSome

/-- The recorded filter dict has all four bandpass keys present (holds
whenever the filtered flag has been set). -/
def filtersReady {Img : Type} (ds : DD Img) : Prop :=
  filtersReadyF ds.filters

/-- The bandpass kernel at the recorded dict values (meaningful when the
four keys are present). -/
def recordedBandpass {Img : Type} (K : Kernels Img) (f : Filters) : Img → Img :=
  K.bandpass f.q_lowpass.join f.q_highpass.join
    (f.filter_type.getD "butterworth") (f.butterworth_order.getD 2)

/-- A concrete kernel instantiation over `Img := ℤ` used for witnesses and
counterexamples: each kernel is a distinct arithmetic action so that the
stages are observably different. -/
def Kc : Kernels ℤ where
  bandpass := fun ql qh ft bo x => x + 100
  filter_hotpix := fun fast x => x + 1
  median_filter := fun m x => x + 2
  rotate := fun a x => x + 10
  crop := fun t b l r x => x
  zeroLike := fun _ => 0
  shape := fun _ => (64, 64)

/-- The dataset produced by `init Kc` on a two-image stack with defocus
values `[1, 2]` (checked below against `init`). -/
def dsRaw : DD ℤ :=
  { images := [10, 20], defvals := [1, 2], orig_images := [10, 20],
    orig_shape := (64, 64), orig_images_preprocessed := none,
    images_cropped := none, images_filtered := none,
    beam_energy := none, beam_energy_prop := none,
    transforms := defaultTransforms (64, 64),
    default_transforms := defaultTransforms (64, 64),
    transforms_modified := false, filters := {},
    preprocessed := false, cropped := false, filtered := false,
    simulated := false }

/-- `dsRaw` after `apply_transforms` (a dataset in the cropped stage). -/
def dsCrop : DD ℤ := (applyTransforms Kc dsRaw).1

/-- `dsCrop` after a full-stack `filter` (a dataset in the filtered stage). -/
def dsFilt : DD ℤ := (filterOp Kc (some (1/10)) none "butterworth" 2 .inone dsCrop).1

/-- `dsFilt` after the user changes the crop/rotation parameters. -/
def dsMoved : DD ℤ :=
  (setTransforms dsFilt { rotation := 1, top := 0, bottom := 32, left := 0, right := 32 }).1

/-- The pixel pipeline of `preprocess` as a function of the raw stack:
optional hot-pixel pass, then optional spatial median filter. -/
def procStack {Img : Type} (K : Kernels Img) (hotpix : Bool)
    (median_filter_size : Option ℤ) (fast : Bool) (l : List Img) : List Img :=
  let l1 := if hotpix then l.map (K.filter_hotpix fast) else l
  match median_filter_size with
  | some m => l1.map (K.median_filter m)
  | none => l1

/-- Current View coincides with the most recently produced cache. -/
def currentIsLatest {Img : Type} (ds : DD Img) : Prop :=
  (ds.filtered = true → ds.images_filtered = some (.stack ds.images)) ∧
    (ds.filtered = false → ds.images_cropped = some ds.images)

/-! ## Lemmas about the numpy index primitives -/

theorem range_map_ofNat_succ (n : ℕ) :
    (List.range (n + 1)).map Int.ofNat =
      0 :: (List.range n).map (fun i => Int.ofNat (i + 1)) := by
  rw [List.range_succ_eq_map, List.map_cons, List.map_map]
  rfl

theorem npIndex_zero {α : Type} (a : α) (l : List α) : npIndex (a :: l) 0 = .ok a := by
  simp [npIndex]

theorem npIndex_cons_succ {α : Type} (a : α) (l : List α) (i : ℕ) :
    npIndex (a :: l) (Int.ofNat (i + 1)) = npIndex l (Int.ofNat i) := by
  simp only [npIndex, List.getElem?_cons_succ]

theorem npGather_shift {α : Type} (a : α) (l : List α) (idx : List ℕ) :
    npGather (a :: l) (idx.map (fun i => Int.ofNat (i + 1))) =
      npGather l (idx.map Int.ofNat) := by
  induction idx with
  | nil => rfl
  | cons i is ih =>
    simp only [List.map_cons, npGather, npIndex_cons_succ, ih]

theorem npGather_range {α : Type} (l : List α) :
    npGather l ((List.range l.length).map Int.ofNat) = .ok l := by
  induction l with
  | nil => rfl
  | cons a t ih =>
    rw [List.length_cons, range_map_ofNat_succ]
    simp only [npGather, npIndex_zero, npGather_shift, ih]

theorem npSet1_zero {α : Type} (a v : α) (l : List α) :
    npSet1 (a :: l) 0 v = .ok (v :: l) := by
  simp [npSet1]

theorem npSet1_cons_succ {α : Type} (a v : α) (l : List α) (i : ℕ) :
    npSet1 (a :: l) (Int.ofNat (i + 1)) v =
      (npSet1 l (Int.ofNat i) v).map (fun l2 => a :: l2) := by
  simp only [npSet1, List.length_cons]
  by_cases h : i < l.length
  · rw [if_pos (by omega), if_pos h]
    rfl
  · rw [if_neg (by omega), if_neg h]
    rfl

theorem npSetList_shift {α : Type} (a : α) (l : List α) (idx : List ℕ)
    (vals : List α) :
    npSetList (a :: l) (idx.map (fun i => Int.ofNat (i + 1))) vals =
      (npSetList l (idx.map Int.ofNat) vals).map (fun l2 => a :: l2) := by
  induction idx generalizing l vals with
  | nil => simp [npSetList, Except.map]
  | cons i is ih =>
    cases vals with
    | nil => rfl
    | cons v vs =>
      simp only [List.map_cons, npSetList, npSet1_cons_succ]
      cases h : npSet1 l (Int.ofNat i) v with
      | error e => rfl
      | ok l2 => simp only [Except.map, ih]

theorem npSetList_range {α : Type} (vals : List α) :
    ∀ (l : List α), l.length = vals.length →
      npSetList l ((List.range vals.length).map Int.ofNat) vals = .ok vals := by
  induction vals with
  | nil =>
    intro l h
    cases l with
    | nil => rfl
    | cons a t => simp at h
  | cons v vs ih =>
    intro l h
    cases l with
    | nil => simp at h
    | cons a t =>
      rw [List.length_cons, range_map_ofNat_succ]
      have ht : t.length = vs.length := by
        simpa using h
      simp only [npSetList, npSet1_zero, npSetList_shift, ih t ht, Except.map]

theorem npGather_range' {α : Type} (n : ℕ) (l : List α) (h : l.length = n) :
    npGather l ((List.range n).map Int.ofNat) = .ok l := by
  subst h
  exact npGather_range l

theorem npSetList_range' {α : Type} (n : ℕ) {l vals : List α}
    (h1 : l.length = n) (h2 : vals.length = n) :
    npSetList l ((List.range n).map Int.ofNat) vals = .ok vals := by
  subst h2
  exact npSetList_range vals l h1

theorem npSet1_length {α : Type} {l l2 : List α} {i : ℤ} {v : α}
    (h : npSet1 l i v = .ok l2) : l2.length = l.length := by
  cases i with
  | ofNat n =>
    simp only [npSet1] at h
    split at h
    · cases h; simp
    · cases h
  | negSucc n =>
    simp only [npSet1] at h
    split at h
    · cases h; simp
    · cases h

theorem npSetList_length {α : Type} {idx : List ℤ} :
    ∀ {vals l l2 : List α}, npSetList l idx vals = .ok l2 → l2.length = l.length := by
  induction idx with
  | nil =>
    intro vals l l2 h
    simp only [npSetList] at h
    cases h
    rfl
  | cons i is ih =>
    intro vals l l2 h
    cases vals with
    | nil => simp [npSetList] at h
    | cons v vs =>
      simp only [npSetList] at h
      cases h1 : npSet1 l i v with
      | error e => rw [h1] at h; cases h
      | ok lm =>
        rw [h1] at h
        exact (ih h).trans (npSet1_length h1)

theorem mapME_ok {α β : Type} {g : α → Except PyErr β} {f : α → β}
    (hg : ∀ x, g x = .ok (f x)) (l : List α) : mapME g l = .ok (l.map f) := by
  induction l with
  | nil => rfl
  | cons x xs ih => simp only [mapME, hg, ih, List.map_cons]

theorem bandpassFromFilters_ok {Img : Type} (K : Kernels Img) {F : Filters}
    {ql qh : Option ℚ} {ft : String} {bo : ℤ}
    (h1 : F.q_lowpass = some ql) (h2 : F.q_highpass = some qh)
    (h3 : F.filter_type = some ft) (h4 : F.butterworth_order = some bo)
    (x : Img) : bandpassFromFilters K F x = .ok (K.bandpass ql qh ft bo x) := by
  simp [bandpassFromFilters, h1, h2, h3, h4]

theorem bandpassFromFilters_ready {Img : Type} (K : Kernels Img) {F : Filters}
    (h : filtersReadyF F) (x : Img) :
    bandpassFromFilters K F x = .ok (recordedBandpass K F x) := by
  obtain ⟨h1, h2, h3, h4⟩ := h
  obtain ⟨ql, hql⟩ := Option.isSome_iff_exists.mp h1
  obtain ⟨qh, hqh⟩ := Option.isSome_iff_exists.mp h2
  obtain ⟨ft, hft⟩ := Option.isSome_iff_exists.mp h3
  obtain ⟨bo, hbo⟩ := Option.isSome_iff_exists.mp h4
  rw [bandpassFromFilters_ok K hql hqh hft hbo]
  simp [recordedBandpass, hql, hqh, hft, hbo]

/-! ## Result lemmas for the stage methods -/

theorem setImagesList_ok {Img : Type} {ds : DD Img} {ims : List Img}
    (h : ims.length = ds.defvals.length) :
    setImagesList ds ims = ({ ds with images := ims }, none) := by
  simp [setImagesList, h]

theorem cropOf_length {Img : Type} (K : Kernels Img) (ds : DD Img) (b : List Img) :
    (cropOf K ds b).length = b.length := by
  unfold cropOf
  split <;> simp

theorem applyTransforms_ok_not_filtered {Img : Type} (K : Kernels Img)
    {ds : DD Img} {b : List Img}
    (hb : baseOf ds = some b) (hl : b.length = ds.defvals.length)
    (hf : ds.filtered = false) :
    applyTransforms K ds =
      ({ ds with images_cropped := some (cropOf K ds b),
                 images := cropOf K ds b,
                 transforms_modified := false, cropped := true }, none) := by
  unfold applyTransforms
  rw [hb]
  simp only [hf, Bool.false_eq_true, if_false]
  rw [setImagesList_ok]
  exact (cropOf_length K ds b).trans hl

theorem applyTransforms_ok_filtered {Img : Type} (K : Kernels Img)
    {ds : DD Img} {b : List Img}
    (hb : baseOf ds = some b) (hl : b.length = ds.defvals.length)
    (hf : ds.filtered = true) (hready : filtersReady ds) :
    applyTransforms K ds =
      ({ ds with images_cropped := some (cropOf K ds b),
                 images_filtered :=
                   some (.stack ((cropOf K ds b).map (recordedBandpass K ds.filters))),
                 images := (cropOf K ds b).map (recordedBandpass K ds.filters),
                 transforms_modified := false, cropped := true }, none) := by
  have hmap : mapME (bandpassFromFilters K ds.filters) (cropOf K ds b)
      = .ok ((cropOf K ds b).map (recordedBandpass K ds.filters)) :=
    mapME_ok (bandpassFromFilters_ready K hready) _
  have hlen : ((cropOf K ds b).map (recordedBandpass K ds.filters)).length
      = ds.defvals.length := by
    rw [List.length_map]
    exact (cropOf_length K ds b).trans hl
  unfold applyTransforms
  rw [hb]
  simp only [hf, if_true]
  rw [hmap]
  dsimp only
  rw [setImagesList_ok]
  exact hlen

theorem filterOp_all {Img : Type} (K : Kernels Img) {ds : DD Img} {c : List Img}
    (ql qh : Option ℚ) (ft : String) (bo : ℤ)
    (hc : ds.cropped = true) (hcc : ds.images_cropped = some c)
    (hlen : ds.images.length = c.length)
    (harr : ds.images_filtered = none ∨
      ∃ old, ds.images_filtered = some (.stack old) ∧ old.length = c.length) :
    filterOp K ql qh ft bo .inone ds =
      ({ ds with
          filtered := true,
          filters := { ds.filters with
            q_lowpass := some ql, q_highpass := some qh,
            filter_type := some ft, butterworth_order := some bo },
          images_filtered := some (.stack (c.map (K.bandpass ql qh ft bo))),
          images := c.map (K.bandpass ql qh ft bo) }, none) := by
  have hfb : filterBaseOf ds = some c := by
    simp [filterBaseOf, hc, hcc]
  unfold filterOp
  dsimp only
  rw [hfb]
  dsimp only
  rw [npGather_range' ds.images.length c hlen.symm]
  dsimp only
  rcases harr with hnone | ⟨old, hsome, holdlen⟩
  · rw [hnone, hcc]
    dsimp only [npZerosLike, npSetArr]
    rw [npSetList_range' ds.images.length (by simp [hlen]) (by simp [hlen])]
    dsimp only
    rw [npSetList_range' ds.images.length rfl (by simp [hlen])]
  · rw [hsome]
    dsimp only [npSetArr]
    rw [npSetList_range' ds.images.length (by omega) (by simp [hlen])]
    dsimp only
    rw [npSetList_range' ds.images.length rfl (by simp [hlen])]

/-! ## Frame lemmas: the Raw snapshot is never written -/

theorem setImagesList_fst_orig {Img : Type} (ds : DD Img) (ims : List Img) :
    (setImagesList ds ims).1.orig_images = ds.orig_images := by
  unfold setImagesList
  split <;> rfl

theorem setImagesList_fst_defvals {Img : Type} (ds : DD Img) (ims : List Img) :
    (setImagesList ds ims).1.defvals = ds.defvals := by
  unfold setImagesList
  split <;> rfl

theorem applyTransforms_fst_orig {Img : Type} (K : Kernels Img) (ds : DD Img) :
    (applyTransforms K ds).1.orig_images = ds.orig_images := by
  unfold applyTransforms
  repeat' first | rfl | split | dsimp only
  all_goals simp [setImagesList_fst_orig]

theorem resetTransforms_fst_orig {Img : Type} (K : Kernels Img) (ds : DD Img) :
    (resetTransforms K ds).1.orig_images = ds.orig_images :=
  applyTransforms_fst_orig K _

theorem preprocessFinish_fst_orig {Img : Type} (hp : Bool) (ms : Option ℤ)
    (r : DD Img × Option PyErr) :
    (preprocessFinish hp ms r).1.orig_images = r.1.orig_images := by
  unfold preprocessFinish
  split <;> rfl

theorem preprocess_fst_orig {Img : Type} (K : Kernels Img) (hp : Bool)
    (ms : Option ℤ) (fast : Bool) (ds : DD Img) :
    (preprocess K hp ms fast ds).1.orig_images = ds.orig_images := by
  unfold preprocess
  repeat' first | rfl | split | dsimp only
  all_goals simp [setImagesList_fst_orig, applyTransforms_fst_orig,
    preprocessFinish_fst_orig]

theorem filterOp_fst_orig {Img : Type} (K : Kernels Img)
    (ql qh : Option ℚ) (ft : String) (bo : ℤ) (idx : IdxInput) (ds : DD Img) :
    (filterOp K ql qh ft bo idx ds).1.orig_images = ds.orig_images := by
  unfold filterOp
  repeat' first | rfl | split | dsimp only

theorem selectROI_fst_orig {Img : Type} (K : Kernels Img) (idx : ℤ)
    (image : Option Img) (rect : ℤ × ℤ × ℤ × ℤ) (ds : DD Img) :
    (selectROI K idx image rect ds).1.orig_images = ds.orig_images := by
  unfold selectROI
  repeat' first | rfl | split | dsimp only

theorem stepOp_fst_orig {Img : Type} (K : Kernels Img) (op : Op Img) (ds : DD Img) :
    (stepOp K op ds).1.orig_images = ds.orig_images := by
  cases op with
  | preprocess h m f => exact preprocess_fst_orig K h m f ds
  | applyTransforms => exact applyTransforms_fst_orig K ds
  | resetTransforms => exact resetTransforms_fst_orig K ds
  | filterOp ql qh ft bo idx => exact filterOp_fst_orig K ql qh ft bo idx ds
  | setImages inp =>
    show (setImages ds inp).1.orig_images = ds.orig_images
    unfold setImages
    exact setImagesList_fst_orig ds _
  | setDefvals dv =>
    show (setDefvals ds dv).1.orig_images = ds.orig_images
    unfold setDefvals
    cases dv <;> repeat' first | rfl | split | dsimp only
  | setEnergy v =>
    show (setEnergy ds v).1.orig_images = ds.orig_images
    unfold setEnergy
    cases v <;> repeat' first | rfl | split | dsimp only
  | selectROI i im r => exact selectROI_fst_orig K i im r ds
  | setTransforms t => rfl

theorem runOps_orig {Img : Type} (K : Kernels Img) (ops : List (Op Img)) :
    ∀ ds : DD Img, (runOps K ops ds).orig_images = ds.orig_images := by
  induction ops with
  | nil => intro ds; rfl
  | cons op rest ih =>
    intro ds
    unfold runOps
    exact (ih _).trans (stepOp_fst_orig K op ds)

/-! ## Preservation of the images / defvals invariant -/

theorem setImagesList_lenInv {Img : Type} {ds : DD Img} (ims : List Img)
    (h : lenInv ds) : lenInv (setImagesList ds ims).1 := by
  unfold setImagesList lenInv at *
  split
  · exact h
  · next h2 =>
    dsimp only
    omega

theorem lenInv_images_map {Img : Type} {ds : DD Img} (f : Img → Img)
    (h : lenInv ds) : lenInv { ds with images := ds.images.map f } := by
  unfold lenInv at *
  simpa using h

theorem applyTransforms_lenInv {Img : Type} (K : Kernels Img) {ds : DD Img}
    (h : lenInv ds) : lenInv (applyTransforms K ds).1 := by
  unfold applyTransforms
  repeat' first
    | exact h
    | exact setImagesList_lenInv _ h
    | split
    | dsimp only

theorem resetTransforms_lenInv {Img : Type} (K : Kernels Img) {ds : DD Img}
    (h : lenInv ds) : lenInv (resetTransforms K ds).1 :=
  applyTransforms_lenInv K h

theorem filterOp_lenInv {Img : Type} (K : Kernels Img) (ql qh : Option ℚ)
    (ft : String) (bo : ℤ) (idx : IdxInput) {ds : DD Img} (h : lenInv ds) :
    lenInv (filterOp K ql qh ft bo idx ds).1 := by
  unfold filterOp
  repeat' first
    | exact h
    | split
    | dsimp only
  all_goals
    rename_i newims heq
    have h2 := npSetList_length heq
    unfold lenInv at *
    dsimp only at *
    omega

theorem setImages_lenInv {Img : Type} {ds : DD Img} (inp : ImagesInput Img)
    (h : lenInv ds) : lenInv (setImages ds inp).1 := by
  unfold setImages
  exact setImagesList_lenInv _ h

theorem setDefvals_lenInv {Img : Type} {ds : DD Img} (dv : DefvalsIn)
    (h : lenInv ds) : lenInv (setDefvals ds dv).1 := by
  unfold setDefvals
  cases dv with
  | dnone => exact h
  | dscalar q =>
    dsimp only
    split
    · exact h
    · next h2 =>
      unfold lenInv
      simp only [List.length_cons, List.length_nil]
      omega
  | darr l =>
    dsimp only
    split
    · exact h
    · next h2 =>
      unfold lenInv
      dsimp only
      omega

theorem setEnergy_lenInv {Img : Type} {ds : DD Img} (v : EnergyVal)
    (h : lenInv ds) : lenInv (setEnergy ds v).1 := by
  unfold setEnergy
  repeat' first | exact h | split | dsimp only

theorem selectROI_lenInv {Img : Type} (K : Kernels Img) (idx : ℤ)
    (image : Option Img) (rect : ℤ × ℤ × ℤ × ℤ) {ds : DD Img} (h : lenInv ds) :
    lenInv (selectROI K idx image rect ds).1 := by
  unfold selectROI
  repeat' first | exact h | split | dsimp only

theorem procStack_length {Img : Type} (K : Kernels Img) (hp : Bool)
    (ms : Option ℤ) (fast : Bool) (l : List Img) :
    (procStack K hp ms fast l).length = l.length := by
  unfold procStack
  cases ms <;> cases hp <;> simp

theorem preprocess_eq {Img : Type} (K : Kernels Img) (hp : Bool) (ms : Option ℤ)
    (fast : Bool) {ds : DD Img}
    (hlen : ds.orig_images.length = ds.defvals.length) :
    preprocess K hp ms fast ds =
      preprocessFinish hp ms (applyTransforms K
        { ds with images := procStack K hp ms fast ds.orig_images,
                  preprocessed := true,
                  orig_images_preprocessed :=
                    some (procStack K hp ms fast ds.orig_images) }) := by
  unfold preprocess
  rw [setImagesList_ok hlen]
  dsimp only
  cases hp with
  | false =>
    cases ms with
    | none => rfl
    | some m =>
      dsimp only
      rw [setImagesList_ok]
      · rfl
      · simp [hlen]
  | true =>
    cases ms with
    | none => rfl
    | some m =>
      dsimp only
      rw [setImagesList_ok]
      · rfl
      · simp [hlen]

theorem preprocess_lenInv {Img : Type} (K : Kernels Img) (hp : Bool)
    (ms : Option ℤ) (fast : Bool) {ds : DD Img} (h : lenInv ds) :
    lenInv (preprocess K hp ms fast ds).1 := by
  by_cases horig : ds.orig_images.length = ds.defvals.length
  · rw [preprocess_eq K hp ms fast horig]
    have hP : lenInv ({ ds with
        images := procStack K hp ms fast ds.orig_images,
        preprocessed := true,
        orig_images_preprocessed :=
          some (procStack K hp ms fast ds.orig_images) } : DD Img) := by
      unfold lenInv
      dsimp only
      rw [procStack_length]
      exact horig
    unfold preprocessFinish
    split
    · exact applyTransforms_lenInv K hP
    · exact applyTransforms_lenInv K hP
  · have hr0 : setImagesList ds ds.orig_images
        = (ds, some (.valueError "len images must equal len defvals")) := by
      unfold setImagesList
      rw [if_pos horig]
    unfold preprocess
    rw [hr0]
    exact h

theorem stepOp_lenInv {Img : Type} (K : Kernels Img) (op : Op Img) {ds : DD Img}
    (h : lenInv ds) : lenInv (stepOp K op ds).1 := by
  cases op with
  | preprocess hp m f => exact preprocess_lenInv K hp m f h
  | applyTransforms => exact applyTransforms_lenInv K h
  | resetTransforms => exact resetTransforms_lenInv K h
  | filterOp ql qh ft bo idx => exact filterOp_lenInv K ql qh ft bo idx h
  | setImages inp => exact setImages_lenInv inp h
  | setDefvals dv => exact setDefvals_lenInv dv h
  | setEnergy v => exact setEnergy_lenInv v h
  | selectROI i im r => exact selectROI_lenInv K i im r h
  | setTransforms t => exact h

theorem runOps_lenInv {Img : Type} (K : Kernels Img) (ops : List (Op Img)) :
    ∀ {ds : DD Img}, lenInv ds → lenInv (runOps K ops ds) := by
  induction ops with
  | nil => intro ds h; exact h
  | cons op rest ih =>
    intro ds h
    exact ih (stepOp_lenInv K op h)

theorem preprocess_ok {Img : Type} (K : Kernels Img) (hp : Bool) (ms : Option ℤ)
    (fast : Bool) {ds : DD Img}
    (hlen : ds.orig_images.length = ds.defvals.length)
    (hready : ds.filtered = true → filtersReady ds) :
    (preprocess K hp ms fast ds).2 = none ∧
    (preprocess K hp ms fast ds).1.orig_images_preprocessed
        = some (procStack K hp ms fast ds.orig_images) ∧
    (preprocess K hp ms fast ds).1.orig_images = ds.orig_images ∧
    (preprocess K hp ms fast ds).1.defvals = ds.defvals ∧
    (preprocess K hp ms fast ds).1.filtered = ds.filtered ∧
    (preprocess K hp ms fast ds).1.filters.q_lowpass = ds.filters.q_lowpass ∧
    (preprocess K hp ms fast ds).1.filters.q_highpass = ds.filters.q_highpass ∧
    (preprocess K hp ms fast ds).1.filters.filter_type = ds.filters.filter_type ∧
    (preprocess K hp ms fast ds).1.filters.butterworth_order
        = ds.filters.butterworth_order ∧
    (preprocess K hp ms fast ds).1.preprocessed = true ∧
    (preprocess K hp ms fast ds).1.cropped = true ∧
    currentIsLatest (preprocess K hp ms fast ds).1 := by
  rw [preprocess_eq K hp ms fast hlen]
  have hPlen : (procStack K hp ms fast ds.orig_images).length
      = ({ ds with images := procStack K hp ms fast ds.orig_images,
                   preprocessed := true,
                   orig_images_preprocessed :=
                     some (procStack K hp ms fast ds.orig_images) } : DD Img).defvals.length := by
    rw [procStack_length]
    exact hlen
  have hbase : baseOf
      ({ ds with images := procStack K hp ms fast ds.orig_images,
                 preprocessed := true,
                 orig_images_preprocessed :=
                   some (procStack K hp ms fast ds.orig_images) } : DD Img)
      = some (procStack K hp ms fast ds.orig_images) := by
    simp [baseOf]
  by_cases hf : ds.filtered = true
  · rw [applyTransforms_ok_filtered K hbase hPlen hf (hready hf)]
    dsimp only [preprocessFinish]
    refine ⟨rfl, rfl, rfl, rfl, hf.symm ▸ rfl, rfl, rfl, rfl, rfl, rfl, rfl, ?_, ?_⟩
    · intro _
      rfl
    · intro h
      rw [hf] at h
      cases h
  · have hf2 : ds.filtered = false := by
      revert hf
      cases ds.filtered <;> simp
    rw [applyTransforms_ok_not_filtered K hbase hPlen hf2]
    dsimp only [preprocessFinish]
    refine ⟨rfl, rfl, rfl, rfl, hf2.symm ▸ rfl, rfl, rfl, rfl, rfl, rfl, rfl, ?_, ?_⟩
    · intro h
      rw [hf2] at h
      cases h
    · intro _
      rfl

/-! ## What a successful construction guarantees -/

theorem init_ok_spec {Img : Type} {K : Kernels Img} {imagesIn : ImagesInput Img}
    {defvalsIn : DefvalsIn} {be : Option EnergyVal} {sim : Bool} {ds : DD Img}
    (h : init K imagesIn defvalsIn be sim = .ok ds) :
    ds.images = promoteImages imagesIn ∧
    ds.orig_images = promoteImages imagesIn ∧
    lenInv ds ∧
    ds.beam_energy = be ∧
    ds.beam_energy_prop = none ∧
    ds.preprocessed = false ∧
    ds.cropped = false ∧
    ds.filtered = false ∧
    ds.orig_images_preprocessed = none ∧
    ds.images_cropped = none ∧
    ds.images_filtered = none := by
  cases defvalsIn with
  | dnone => simp [init] at h
  | dscalar q =>
    simp only [init] at h
    split at h
    · simp at h
    · cases h
      next h2 =>
        refine ⟨rfl, rfl, ?_, rfl, rfl, rfl, rfl, rfl, rfl, rfl, rfl⟩
        unfold lenInv
        simp only [List.length_cons, List.length_nil] at h2 ⊢
        omega
  | darr l =>
    simp only [init] at h
    split at h
    · simp at h
    · cases h
      next h2 =>
        refine ⟨rfl, rfl, ?_, rfl, rfl, rfl, rfl, rfl, rfl, rfl, rfl⟩
        unfold lenInv
        dsimp only
        omega

/-! ## Claim theorems -/

/-- C1: for every valid construction of a `DefocusedDataset` and every
sequence of mutating calls, `len(images) == len(defocus_values)` holds
afterwards, and an assignment to `images` or `defvals` whose length does
not match the other field's current length fails with a `ValueError`
before taking effect. -/
theorem c1_len_invariant {Img : Type} (K : Kernels Img)
    (imagesIn : ImagesInput Img) (defvalsIn : DefvalsIn) (be : Option EnergyVal)
    (sim : Bool) {ds : DD Img}
    (h : init K imagesIn defvalsIn be sim = .ok ds) :
    (∀ ops : List (Op Img),
      (runOps K ops ds).images.length = (runOps K ops ds).defvals.length) ∧
    (∀ (r : DD Img) (inp : ImagesInput Img),
      (promoteImages inp).length ≠ r.defvals.length →
      setImages r inp = (r, some (.valueError "len images must equal len defvals"))) ∧
    (∀ (r : DD Img) (l : List ℚ),
      l.length ≠ r.images.length →
      setDefvals r (.darr l)
        = (r, some (.valueError "number defocus vals must equal number images"))) := by
  refine ⟨?_, ?_, ?_⟩
  · intro ops
    exact runOps_lenInv K ops (init_ok_spec h).2.2.1
  · intro r inp hne
    unfold setImages setImagesList
    rw [if_pos hne]
  · intro r l hne
    unfold setDefvals
    dsimp only
    rw [if_pos hne]

/-- Witness for C1 at a concrete two-image dataset. -/
theorem c1_len_invariant_witness :
    ((runOps Kc [.applyTransforms,
        .filterOp (some (1/10)) none "butterworth" 2 (.iint 1)] dsRaw).images.length
      = (runOps Kc [.applyTransforms,
        .filterOp (some (1/10)) none "butterworth" 2 (.iint 1)] dsRaw).defvals.length) ∧
    setImages dsRaw (.im3d [1, 2, 3])
      = (dsRaw, some (.valueError "len images must equal len defvals")) :=
  ⟨(c1_len_invariant Kc (.im3d [10, 20]) (.darr [1, 2]) none false
      (show init Kc (.im3d [10, 20]) (.darr [1, 2]) none false = .ok dsRaw from rfl)).1 _,
   (c1_len_invariant Kc (.im3d [10, 20]) (.darr [1, 2]) none false
      (show init Kc (.im3d [10, 20]) (.darr [1, 2]) none false = .ok dsRaw from rfl)).2.1
     dsRaw (.im3d [1, 2, 3]) (by decide)⟩

/-- C7: the Raw snapshot taken at construction is never mutated by any
later sequence of operations. -/
theorem c7_raw_immutable {Img : Type} (K : Kernels Img)
    (imagesIn : ImagesInput Img) (defvalsIn : DefvalsIn) (be : Option EnergyVal)
    (sim : Bool) {ds : DD Img}
    (h : init K imagesIn defvalsIn be sim = .ok ds) (ops : List (Op Img)) :
    (runOps K ops ds).orig_images = ds.orig_images ∧
    (runOps K ops ds).orig_images = promoteImages imagesIn := by
  constructor
  · exact runOps_orig K ops ds
  · rw [runOps_orig K ops ds]
    exact (init_ok_spec h).2.1

/-- Witness for C7: a concrete run through every stage method leaves the
Raw snapshot untouched. -/
theorem c7_raw_immutable_witness :
    (runOps Kc [.preprocess true none true, .applyTransforms,
        .filterOp (some (1/10)) none "butterworth" 2 .inone,
        .selectROI 0 none (1, 20, 1, 20), .resetTransforms] dsRaw).orig_images
      = dsRaw.orig_images ∧
    (runOps Kc [.preprocess true none true, .applyTransforms,
        .filterOp (some (1/10)) none "butterworth" 2 .inone,
        .selectROI 0 none (1, 20, 1, 20), .resetTransforms] dsRaw).orig_images
      = promoteImages (.im3d [10, 20]) :=
  c7_raw_immutable Kc (.im3d [10, 20]) (.darr [1, 2]) none false
    (show init Kc (.im3d [10, 20]) (.darr [1, 2]) none false = .ok dsRaw from rfl) _

/-- C9: constructing with a non-empty image stack and `defvals=None`
raises `TypeError` (from `len(None)` in the `defvals` setter), so the
defocus values are effectively mandatory despite the `Optional` type. -/
theorem c9_none_defvals_type_error {Img : Type} (K : Kernels Img)
    (l : List Img) (hne : l ≠ []) (be : Option EnergyVal) (sim : Bool) :
    init K (.im3d l) .dnone be sim
      = .error (.typeError "object of type NoneType has no len") := rfl

/-- Witness for C9 at a concrete one-image stack. -/
theorem c9_none_defvals_witness :
    [(10 : ℤ)] ≠ [] ∧
    init Kc (.im3d [10]) .dnone none false
      = .error (.typeError "object of type NoneType has no len") :=
  ⟨by decide, c9_none_defvals_type_error Kc [10] (by decide) none false⟩

/-- C10: on a freshly constructed dataset, reading the `energy` property
raises `AttributeError` (the constructor never initializes
`_beam_energy`); after assigning through the setter it returns the
stored value. -/
theorem c10_energy_attribute_error {Img : Type} (K : Kernels Img)
    (imagesIn : ImagesInput Img) (defvalsIn : DefvalsIn) (be : Option EnergyVal)
    (sim : Bool) {ds : DD Img}
    (h : init K imagesIn defvalsIn be sim = .ok ds) :
    getEnergy ds = .error (.attributeError "_beam_energy") ∧
    (∀ q : ℚ, 0 < q → getEnergy (setEnergy ds (.num q)).1 = .ok q) := by
  have hprop := (init_ok_spec h).2.2.2.2.1
  constructor
  · unfold getEnergy
    rw [hprop]
  · intro q hq
    unfold setEnergy
    dsimp only
    rw [if_neg (not_le.mpr hq)]
    rfl

/-- Witness for C10 at a concrete dataset with `beam_energy=None`. -/
theorem c10_energy_witness :
    getEnergy dsRaw = .error (.attributeError "_beam_energy") ∧
    getEnergy (setEnergy dsRaw (.num 5)).1 = .ok 5 :=
  ⟨(c10_energy_attribute_error Kc (.im3d [10, 20]) (.darr [1, 2]) none false
      (show init Kc (.im3d [10, 20]) (.darr [1, 2]) none false = .ok dsRaw from rfl)).1,
   (c10_energy_attribute_error Kc (.im3d [10, 20]) (.darr [1, 2]) none false
      (show init Kc (.im3d [10, 20]) (.darr [1, 2]) none false = .ok dsRaw from rfl)).2
     5 (by norm_num)⟩

/-- Counterexample to C5: constructing with a non-positive (or
non-numeric) `beam_energy` succeeds — `__init__` stores the argument in a
plain attribute without any validation, contradicting the claim that
every attempt to set the beam energy is validated. -/
theorem c5_counterexample :
    (init Kc (.im3d [10]) (.darr [1]) (some (.num (-5))) false).isOk = true ∧
    (init Kc (.im3d [10]) (.darr [1]) (some (.nonNum "str")) false).isOk = true ∧
    (∀ ds : DD ℤ, init Kc (.im3d [10]) (.darr [1]) (some (.num (-5))) false = .ok ds →
      ds.beam_energy = some (.num (-5))) := by
  refine ⟨rfl, rfl, ?_⟩
  intro ds h
  exact ((init_ok_spec h).2.2.2.1).trans rfl

/-- C5 as amended: only assignment through the `energy` property setter is
validated (`TypeError` for non-numeric, `ValueError` for values `≤ 0`,
positive numeric values stored in `_beam_energy`); the `beam_energy`
constructor argument is stored unvalidated in a separate plain attribute
and `_beam_energy` is left uninitialized. -/
theorem c5_amended {Img : Type} :
    (∀ (ds : DD Img) (t : String),
      setEnergy ds (.nonNum t) = (ds, some (.typeError "energy must be numeric"))) ∧
    (∀ (ds : DD Img) (q : ℚ), q ≤ 0 →
      setEnergy ds (.num q) = (ds, some (.valueError "energy must be greater than 0"))) ∧
    (∀ (ds : DD Img) (q : ℚ), 0 < q →
      setEnergy ds (.num q) = ({ ds with beam_energy_prop := some q }, none)) ∧
    (∀ (K : Kernels Img) (imagesIn : ImagesInput Img) (defvalsIn : DefvalsIn)
        (be : Option EnergyVal) (sim : Bool) (ds : DD Img),
      init K imagesIn defvalsIn be sim = .ok ds →
      ds.beam_energy = be ∧ ds.beam_energy_prop = none) := by
  refine ⟨fun ds t => rfl, ?_, ?_, ?_⟩
  · intro ds q hq
    unfold setEnergy
    dsimp only
    rw [if_pos hq]
  · intro ds q hq
    unfold setEnergy
    dsimp only
    rw [if_neg (not_le.mpr hq)]
  · intro K imagesIn defvalsIn be sim ds h
    exact ⟨(init_ok_spec h).2.2.2.1, (init_ok_spec h).2.2.2.2.1⟩

/-- Witness for the amended C5 at concrete inputs. -/
theorem c5_amended_witness :
    setEnergy dsRaw (.nonNum "str")
      = (dsRaw, some (.typeError "energy must be numeric")) ∧
    setEnergy dsRaw (.num (-5))
      = (dsRaw, some (.valueError "energy must be greater than 0")) ∧
    setEnergy dsRaw (.num 5)
      = ({ dsRaw with beam_energy_prop := some 5 }, none) ∧
    (dsRaw.beam_energy = none ∧ dsRaw.beam_energy_prop = none) :=
  ⟨c5_amended.1 dsRaw "str",
   c5_amended.2.1 dsRaw (-5) (by norm_num),
   c5_amended.2.2.1 dsRaw 5 (by norm_num),
   c5_amended.2.2.2 Kc (.im3d [10, 20]) (.darr [1, 2]) none false dsRaw
     (show init Kc (.im3d [10, 20]) (.darr [1, 2]) none false = .ok dsRaw from rfl)⟩

/-- C2 (code bug): calling `filter` on a dataset that was never cropped
(and never filtered) crashes instead of allocating the Filtered cache:
`np.zeros_like(self._images_cropped)` is evaluated on `None`, producing a
0-d object array, and the fancy-index store then raises `IndexError` —
the claim's zero-stack allocation never happens and Current View is never
updated. -/
theorem c2_filter_raw_state_fails :
    filterOp Kc (some (1/10)) none "butterworth" 2 .inone dsRaw
      = ({ dsRaw with
            filtered := true,
            filters := { q_lowpass := some (some (1/10)), q_highpass := some none,
                         filter_type := some "butterworth", butterworth_order := some 2,
                         hotpix := none, median := none },
            images_filtered := some .obj0d },
          some (.indexError "too many indices for array")) := rfl

/-- C4 (code bug): that same failing `filter` call is not atomic: before
raising it has already set the filtered stage flag, recorded the filter
parameters and clobbered `_images_filtered`, leaving the dataset
partially mutated. -/
theorem c4_partial_mutation_on_failed_filter :
    (filterOp Kc none (some (1/20)) "gaussian" 2 (.iint 0) dsRaw).2
        = some (.indexError "too many indices for array") ∧
    (filterOp Kc none (some (1/20)) "gaussian" 2 (.iint 0) dsRaw).1.filtered = true ∧
    (filterOp Kc none (some (1/20)) "gaussian" 2 (.iint 0) dsRaw).1.filters.filter_type
        = some "gaussian" ∧
    (filterOp Kc none (some (1/20)) "gaussian" 2 (.iint 0) dsRaw).1.images_filtered
        = some .obj0d ∧
    dsRaw.filtered = false ∧ dsRaw.filters.filter_type = none :=
  ⟨rfl, rfl, rfl, rfl, rfl, rfl⟩

/-- Counterexample to C6: after filtering only index 1 of a two-image
cropped dataset, Current View keeps the unfiltered value at index 0 while
the Filtered cache holds a zero there, so Current View is not equal to
the most recently produced cache. -/
theorem c6_counterexample :
    (filterOp Kc (some (1/10)) none "butterworth" 2 (.iint 1) dsCrop).2 = none ∧
    (filterOp Kc (some (1/10)) none "butterworth" 2 (.iint 1) dsCrop).1.filtered = true ∧
    (filterOp Kc (some (1/10)) none "butterworth" 2 (.iint 1) dsCrop).1.images
      = [10, 120] ∧
    (filterOp Kc (some (1/10)) none "butterworth" 2 (.iint 1) dsCrop).1.images_filtered
      = some (.stack [0, 120]) ∧
    (filterOp Kc (some (1/10)) none "butterworth" 2 (.iint 1) dsCrop).1.images_filtered
      ≠ some (.stack (filterOp Kc (some (1/10)) none "butterworth" 2
          (.iint 1) dsCrop).1.images) :=
  ⟨rfl, rfl, rfl, rfl, by decide⟩

/-- C6 as amended: Current View equals the most recently produced cache
after `apply_transforms`, `reset_transforms`, `preprocess`, and after
`filter` over all indices; a `filter` over a subset of indices updates
Current View and Filtered only at the selected indices, so the two arrays
need not agree elsewhere. -/
theorem c6_amended {Img : Type} (K : Kernels Img) :
    (∀ {ds : DD Img} {b : List Img}, baseOf ds = some b →
      b.length = ds.defvals.length → (ds.filtered = true → filtersReady ds) →
      (applyTransforms K ds).2 = none ∧ currentIsLatest (applyTransforms K ds).1) ∧
    (∀ {ds : DD Img} {b : List Img}, baseOf ds = some b →
      b.length = ds.defvals.length → (ds.filtered = true → filtersReady ds) →
      (resetTransforms K ds).2 = none ∧ currentIsLatest (resetTransforms K ds).1) ∧
    (∀ {ds : DD Img} (hp : Bool) (ms : Option ℤ) (fast : Bool),
      ds.orig_images.length = ds.defvals.length →
      (ds.filtered = true → filtersReady ds) →
      (preprocess K hp ms fast ds).2 = none ∧
        currentIsLatest (preprocess K hp ms fast ds).1) ∧
    (∀ {ds : DD Img} {c : List Img} (ql qh : Option ℚ) (ft : String) (bo : ℤ),
      ds.cropped = true → ds.images_cropped = some c →
      ds.images.length = c.length →
      (ds.images_filtered = none ∨
        ∃ old, ds.images_filtered = some (.stack old) ∧ old.length = c.length) →
      (filterOp K ql qh ft bo .inone ds).2 = none ∧
        currentIsLatest (filterOp K ql qh ft bo .inone ds).1) := by
  have hAT : ∀ {ds : DD Img} {b : List Img}, baseOf ds = some b →
      b.length = ds.defvals.length → (ds.filtered = true → filtersReady ds) →
      (applyTransforms K ds).2 = none ∧ currentIsLatest (applyTransforms K ds).1 := by
    intro ds b hb hl hready
    by_cases hf : ds.filtered = true
    · rw [applyTransforms_ok_filtered K hb hl hf (hready hf)]
      refine ⟨rfl, ?_, ?_⟩
      · intro _
        rfl
      · intro hcontra
        dsimp only at hcontra
        rw [hf] at hcontra
        cases hcontra
    · have hf2 : ds.filtered = false := by
        revert hf
        cases ds.filtered <;> simp
      rw [applyTransforms_ok_not_filtered K hb hl hf2]
      refine ⟨rfl, ?_, ?_⟩
      · intro hcontra
        dsimp only at hcontra
        rw [hf2] at hcontra
        cases hcontra
      · intro _
        rfl
  refine ⟨fun hb hl hready => hAT hb hl hready, ?_, ?_, ?_⟩
  · intro ds b hb hl hready
    exact hAT hb hl hready
  · intro ds hp ms fast hlen hready
    obtain ⟨e1, _, _, _, _, _, _, _, _, _, _, cil⟩ :=
      preprocess_ok K hp ms fast hlen hready
    exact ⟨e1, cil⟩
  · intro ds c ql qh ft bo hc hcc hlen harr
    rw [filterOp_all K ql qh ft bo hc hcc hlen harr]
    refine ⟨rfl, ?_, ?_⟩
    · intro _
      rfl
    · intro hcontra
      dsimp only at hcontra
      cases hcontra

/-- Witness for the amended C6 at concrete datasets in each stage. -/
theorem c6_amended_witness :
    ((applyTransforms Kc dsRaw).2 = none ∧ currentIsLatest (applyTransforms Kc dsRaw).1) ∧
    ((resetTransforms Kc dsRaw).2 = none ∧ currentIsLatest (resetTransforms Kc dsRaw).1) ∧
    ((preprocess Kc true none true dsRaw).2 = none ∧
      currentIsLatest (preprocess Kc true none true dsRaw).1) ∧
    ((filterOp Kc (some (1/10)) none "butterworth" 2 .inone dsCrop).2 = none ∧
      currentIsLatest (filterOp Kc (some (1/10)) none "butterworth" 2 .inone dsCrop).1) :=
  ⟨(c6_amended Kc).1 rfl rfl (fun hcontra => absurd hcontra (by decide)),
   (c6_amended Kc).2.1 rfl rfl (fun hcontra => absurd hcontra (by decide)),
   (c6_amended Kc).2.2.1 true none true rfl (fun hcontra => absurd hcontra (by decide)),
   (c6_amended Kc).2.2.2 (some (1/10)) none "butterworth" 2 rfl rfl rfl (Or.inl rfl)⟩

/-- C3: on a dataset whose filter stage has already run, changing the
transform parameters and calling `apply_transforms` re-filters the new
crop with the recorded parameters: a subsequent manual `filter` call with
those same parameters over all indices is a no-op, returning the very
same Filtered cache and Current View (and state). -/
theorem c3_apply_transforms_refilters {Img : Type} (K : Kernels Img) {ds : DD Img}
    {b : List Img} {ql qh : Option ℚ} {ft : String} {bo : ℤ}
    (hb : baseOf ds = some b) (hl : b.length = ds.defvals.length)
    (hf : ds.filtered = true)
    (h1 : ds.filters.q_lowpass = some ql) (h2 : ds.filters.q_highpass = some qh)
    (h3 : ds.filters.filter_type = some ft)
    (h4 : ds.filters.butterworth_order = some bo) :
    (applyTransforms K ds).2 = none ∧
    filterOp K ql qh ft bo .inone (applyTransforms K ds).1
      = ((applyTransforms K ds).1, none) := by
  have hready : filtersReady ds := by
    unfold filtersReady filtersReadyF
    rw [h1, h2, h3, h4]
    exact ⟨rfl, rfl, rfl, rfl⟩
  have hrb : recordedBandpass K ds.filters = K.bandpass ql qh ft bo := by
    unfold recordedBandpass
    rw [h1, h2, h3, h4]
    rfl
  have hfil : ({ ds.filters with
      q_lowpass := some ql, q_highpass := some qh,
      filter_type := some ft, butterworth_order := some bo } : Filters)
      = ds.filters := by
    rw [← h1, ← h2, ← h3, ← h4]
  rw [applyTransforms_ok_filtered K hb hl hf hready, hrb]
  refine ⟨rfl, ?_⟩
  rw [filterOp_all K ql qh ft bo rfl rfl (by simp) (Or.inr ⟨_, rfl, by simp⟩)]
  dsimp only
  rw [hfil, hf]

/-- Witness for C3: a concrete dataset filtered on the full stack, whose
crop box and rotation are then changed. -/
theorem c3_apply_transforms_refilters_witness :
    (applyTransforms Kc dsMoved).2 = none ∧
    filterOp Kc (some (1/10)) none "butterworth" 2 .inone (applyTransforms Kc dsMoved).1
      = ((applyTransforms Kc dsMoved).1, none) :=
  c3_apply_transforms_refilters Kc rfl rfl rfl rfl rfl rfl rfl

/-- C8: a second `preprocess` call with the same parameters rebuilds the
Preprocessed cache from the (unchanged) Raw snapshot, yielding exactly
the first call's cache — a pure function of Raw, never a compounded
result. -/
theorem c8_preprocess_idempotent {Img : Type} (K : Kernels Img) (hp : Bool)
    (ms : Option ℤ) (fast : Bool) {ds : DD Img}
    (hlen : ds.orig_images.length = ds.defvals.length)
    (hready : ds.filtered = true → filtersReady ds) :
    (preprocess K hp ms fast ds).2 = none ∧
    (preprocess K hp ms fast (preprocess K hp ms fast ds).1).2 = none ∧
    (preprocess K hp ms fast ds).1.orig_images_preprocessed
      = some (procStack K hp ms fast ds.orig_images) ∧
    (preprocess K hp ms fast (preprocess K hp ms fast ds).1).1.orig_images_preprocessed
      = (preprocess K hp ms fast ds).1.orig_images_preprocessed := by
  obtain ⟨e1, cache1, orig1, dv1, filt1, k1, k2, k3, k4, _, _, _⟩ :=
    preprocess_ok K hp ms fast hlen hready
  have hlen2 : (preprocess K hp ms fast ds).1.orig_images.length
      = (preprocess K hp ms fast ds).1.defvals.length := by
    rw [orig1, dv1]
    exact hlen
  have hready2 : (preprocess K hp ms fast ds).1.filtered = true →
      filtersReady (preprocess K hp ms fast ds).1 := by
    intro hft
    rw [filt1] at hft
    have hr := hready hft
    unfold filtersReady filtersReadyF at *
    rw [k1, k2, k3, k4]
    exact hr
  obtain ⟨e2, cache2, orig2, _, _, _, _, _, _, _, _, _⟩ :=
    preprocess_ok K hp ms fast hlen2 hready2
  refine ⟨e1, e2, cache1, ?_⟩
  rw [cache2, orig1, cache1]

/-- Witness for C8 at a concrete dataset (hot-pixel pass plus median
filter of size 3). -/
theorem c8_preprocess_idempotent_witness :
    (preprocess Kc true (some 3) true dsRaw).2 = none ∧
    (preprocess Kc true (some 3) true (preprocess Kc true (some 3) true dsRaw).1).2
      = none ∧
    (preprocess Kc true (some 3) true dsRaw).1.orig_images_preprocessed
      = some (procStack Kc true (some 3) true dsRaw.orig_images) ∧
    (preprocess Kc true (some 3) true
        (preprocess Kc true (some 3) true dsRaw).1).1.orig_images_preprocessed
      = (preprocess Kc true (some 3) true dsRaw).1.orig_images_preprocessed :=
  c8_preprocess_idempotent Kc true (some 3) true rfl
    (fun hcontra => absurd hcontra (by decide))
